import Mathlib

/-
Shallow embedding of the route optimization and dynamic rerouting engine of
the transport-app repository.  The embedded code lives in
src/unnamed/part_001 (utils/calculations.js and RouteOptimizationService),
src/unnamed/part_002 (OrderPoolingService) and src/unnamed/part_004
(services/routeService.js).

Modelling conventions:
- JavaScript numbers are modelled as rationals, except for the Haversine
  distance formula, which uses transcendental functions and is modelled over
  the reals.
- External collaborators are explicit parameters: the external solver is a
  function argument, the results of the traffic and weather provider fetches
  are plain arguments, the turf geometry test is a function argument, and the
  redis cache backend is a small association-list state threaded through the
  functions together with a counter of solver invocations.
- JavaScript exceptions are modelled with Except; a JavaScript Date is a
  rational millisecond timestamp, and an invalid Date is modelled as the
  value none of Option.
- The JSON serialization used to build redis cache keys is injective on the
  structured values involved, so a cache key is modelled as the serialized
  value itself; JSON round-tripping of cached plain-data values is modelled
  as the identity.
-/

namespace TransportApp

/- ===== GeoMath: utils/calculations.js (part_001 lines 185-260) ===== -/

-- toRadians (part_001 lines 258-260)
noncomputable def toRadians (degrees : ℝ) : ℝ := degrees * Real.pi / 180

-- Math.atan2 as specified for JavaScript.  Only the branches with a
-- nonnegative second argument are exercised by the development below.
noncomputable def atan2 (y x : ℝ) : ℝ :=
  if 0 < x then Real.arctan (y / x)
  else if x < 0 then
    (if 0 ≤ y then Real.arctan (y / x) + Real.pi else Real.arctan (y / x) - Real.pi)
  else
    (if 0 < y then Real.pi / 2 else if y < 0 then -(Real.pi / 2) else 0)

-- the intermediate value a of the Haversine formula (part_001 lines 199-202);
-- a point is a (longitude, latitude) pair in degrees
noncomputable def haversineA (point1 point2 : ℝ × ℝ) : ℝ :=
  Real.sin (toRadians (point2.2 - point1.2) / 2) * Real.sin (toRadians (point2.2 - point1.2) / 2) +
    Real.cos (toRadians point1.2) * Real.cos (toRadians point2.2) *
      (Real.sin (toRadians (point2.1 - point1.1) / 2) * Real.sin (toRadians (point2.1 - point1.1) / 2))

-- calculateDistance (part_001 lines 191-208): Earth radius 6371 km,
-- c = 2 * atan2(sqrt(a), sqrt(1 - a)), distance = R * c
noncomputable def calculateDistance (point1 point2 : ℝ × ℝ) : ℝ :=
  6371 * (2 * atan2 (Real.sqrt (haversineA point1 point2)) (Real.sqrt (1 - haversineA point1 point2)))

-- calculateFuelConsumption (part_001 lines 216-218)
def calculateFuelConsumption (distance efficiency : ℚ) : ℚ := distance * efficiency

/- calculateETA (part_001 lines 228-235).  The function performs no input
validation.  Division is JavaScript division: dividing by zero produces a
non-finite number (Infinity or NaN), modelled as none; a non-finite number of
hours yields an invalid Date, also modelled as none.  The Except layer is the
JavaScript exception channel; the source contains no throw statement, so no
error value is ever produced.  The transcendental Haversine distance is
abstracted as the function argument dist. -/

inductive CalculationError where
  | invalidInput
deriving DecidableEq

def jsDiv (a b : ℚ) : Option ℚ := if b = 0 then none else some (a / b)

def calculateETA (dist : (ℚ × ℚ) → (ℚ × ℚ) → ℚ) (originPoint destinationPoint : ℚ × ℚ)
    (averageSpeed : ℚ) (startTime : ℚ) : Except CalculationError (Option ℚ) :=
  match jsDiv (dist originPoint destinationPoint) averageSpeed with
  | none => Except.ok none
  | some timeInHours => Except.ok (some (startTime + timeInHours * (60 * 60 * 1000)))

/- ===== ServiceTimeEstimator: calculateServiceTime (part_001 lines 364-389) ===== -/

/- A delivery stop as consumed by RouteOptimizationService.  The JavaScript
truthiness guards on weight and volume are modelled as comparisons with 0
(an absent attribute is modelled as 0). -/
structure Stop where
  id : Nat
  coordinates : ℚ × ℚ
  weight : ℚ
  volume : ℚ
  requiresSignature : Bool
  securityLevel : String
  shipmentType : String
  priority : Option String
deriving DecidableEq

def calculateServiceTime (stop : Stop) : ℤ :=
  let serviceTime : ℤ := 5
  let serviceTime := serviceTime + (if stop.weight ≠ 0 then ⌈stop.weight / 10⌉ else 0)
  let serviceTime := serviceTime + (if stop.volume ≠ 0 then ⌈stop.volume / (1/2)⌉ else 0)
  let serviceTime := serviceTime + (if stop.requiresSignature then 3 else 0)
  serviceTime + (if stop.securityLevel = "high" ∨ stop.shipmentType = "military" then 15 else 0)

/- Service time as worded by the spec (section 4.3): the surcharge also
triggers for shipment type restricted.  Used to compare the spec sentence
with the source function. -/
def specServiceTime (stop : Stop) : ℤ :=
  5 + ⌈stop.weight / 10⌉ + ⌈stop.volume / (1/2)⌉ + (if stop.requiresSignature then 3 else 0) +
    (if stop.securityLevel = "high" ∨ stop.shipmentType = "restricted" ∨ stop.shipmentType = "military"
      then 15 else 0)

/- ===== DelayModel: weather and traffic factors (part_001 lines 420-449 and 625-666) ===== -/

-- the weather provider response: {condition, precipitation, visibility, windSpeed, temperature}
structure WeatherData where
  condition : String
  precipitation : ℚ
  visibility : ℚ
  windSpeed : ℚ
  temperature : ℚ
deriving DecidableEq

/- calculateWeatherDelayFactor (part_001 lines 641-666), written with the
same sequential multiplicative updates as the source.  The guard on
precipitation is the JavaScript truthiness test (0 is falsy). -/
def calculateWeatherDelayFactor (weatherData : WeatherData) : ℚ :=
  let factor : ℚ := 1
  let factor := if weatherData.precipitation ≠ 0 then
      (if weatherData.precipitation < 2 then factor * (11/10)
       else if weatherData.precipitation < 10 then factor * (13/10)
       else factor * (8/5))
    else factor
  let factor := if weatherData.visibility < 1000 then factor * (7/5)
    else if weatherData.visibility < 5000 then factor * (6/5)
    else factor
  let factor := if weatherData.windSpeed > 50 then factor * (13/10)
    else if weatherData.windSpeed > 30 then factor * (11/10)
    else factor
  if weatherData.temperature < 2 ∧ weatherData.temperature > -2 then factor * (3/2) else factor

-- the four independent bands of the weather factor, read off the source
def precipitationFactor (precipitation : ℚ) : ℚ :=
  if precipitation ≠ 0 then
    (if precipitation < 2 then 11/10 else if precipitation < 10 then 13/10 else 8/5)
  else 1

def visibilityFactor (visibility : ℚ) : ℚ :=
  if visibility < 1000 then 7/5 else if visibility < 5000 then 6/5 else 1

def windFactor (windSpeed : ℚ) : ℚ :=
  if windSpeed > 50 then 13/10 else if windSpeed > 30 then 11/10 else 1

def temperatureFactor (temperature : ℚ) : ℚ :=
  if temperature < 2 ∧ temperature > -2 then 3/2 else 1

-- calculateDelayFactor (part_001 lines 441-449): incident severity table
def calculateDelayFactor (severity : String) : ℚ :=
  if severity.toLower = "low" then 11/10
  else if severity.toLower = "medium" then 13/10
  else if severity.toLower = "high" then 17/10
  else if severity.toLower = "severe" then 5/2
  else 1

/- ===== RerouteMonitor types (part_001 lines 479-560) ===== -/

-- geometry of a traffic incident: a point or a line segment, as distinguished
-- by the Array.isArray test of isIncidentOnRoute
inductive IncidentGeometry where
  | point : ℚ × ℚ → IncidentGeometry
  | line : List (ℚ × ℚ) → IncidentGeometry
deriving DecidableEq

structure MonitorIncident where
  severity : String
  geometry : IncidentGeometry
deriving DecidableEq

-- the traffic provider snapshot consumed by the reroute check
structure MonitorTraffic where
  overallCondition : String
  incidents : List MonitorIncident
deriving DecidableEq

-- the live route state inspected by the reroute check; times are
-- millisecond timestamps, durations are seconds
structure LiveRoute where
  routeGeometry : List (ℚ × ℚ)
  departureTime : ℚ
  arrivalTime : ℚ
  totalDuration : ℚ
deriving DecidableEq

-- calculateOverallDelayFactor (part_001 lines 625-634)
def calculateOverallDelayFactor (trafficData : MonitorTraffic) : ℚ :=
  if trafficData.overallCondition = "free_flow" then 9/10
  else if trafficData.overallCondition = "light" then 1
  else if trafficData.overallCondition = "moderate" then 6/5
  else if trafficData.overallCondition = "heavy" then 3/2
  else if trafficData.overallCondition = "severe" then 2
  else 1

/-- Modelled from the spec: checkIfReroutingNeeded (part_001 line 532) calls
this.calculateNewETA, but no method of that name is defined anywhere in the
repository sources.  Section 4.7 of the spec describes the projected new
arrival time as the arrival obtained by rescaling the route durations with
the current overall traffic delay factor, so the projection is modelled as
the departure time plus the total route duration (seconds, converted to
milliseconds) scaled by the overall traffic delay factor. -/
def calculateNewETA (route : LiveRoute) (trafficData : MonitorTraffic) : ℚ :=
  route.departureTime + route.totalDuration * calculateOverallDelayFactor trafficData * 1000

/- isIncidentOnRoute (part_001 lines 543-560): the route polyline is buffered
by 0.5 km and the incident geometry is tested for containment in the buffer.
The turf buffer-containment computation is an external geometry library,
modelled as the function argument turfWithinBuffer taking the incident
geometry, the route polyline and the buffer radius in kilometers. -/
def isIncidentOnRoute (turfWithinBuffer : IncidentGeometry → List (ℚ × ℚ) → ℚ → Bool)
    (incident : MonitorIncident) (route : LiveRoute) : Bool :=
  turfWithinBuffer incident.geometry route.routeGeometry (1/2)

-- checkIfReroutingNeeded (part_001 lines 519-535)
def checkIfReroutingNeeded (turfWithinBuffer : IncidentGeometry → List (ℚ × ℚ) → ℚ → Bool)
    (route : LiveRoute) (trafficData : MonitorTraffic) (weatherData : WeatherData) : Bool :=
  let severeTrafficOnRoute := trafficData.incidents.any (fun incident =>
    incident.severity == "severe" && isIncidentOnRoute turfWithinBuffer incident route)
  let severeWeather := weatherData.condition == "storm" || weatherData.condition == "blizzard" ||
    decide (weatherData.visibility < 200)
  let significantDelay := trafficData.overallCondition == "severe" &&
    decide (calculateNewETA route trafficData - route.arrivalTime > 30 * 60 * 1000)
  severeTrafficOnRoute || severeWeather || significantDelay

inductive RerouteDecision where
  | reoptimize
  | patchETAs
deriving DecidableEq

-- the branch of updateRouteWithRealTimeData (part_001 lines 489-510):
-- re-optimize when the check fires, otherwise only recalculate the ETAs
def rerouteDecision (turfWithinBuffer : IncidentGeometry → List (ℚ × ℚ) → ℚ → Bool)
    (route : LiveRoute) (trafficData : MonitorTraffic) (weatherData : WeatherData) : RerouteDecision :=
  if checkIfReroutingNeeded turfWithinBuffer route trafficData weatherData then
    RerouteDecision.reoptimize
  else RerouteDecision.patchETAs

/- ===== ProximityClusterer: OrderPoolingService.findPoolingCandidates (part_002 lines 16-63) ===== -/

-- a pending order; coordinates are the delivery location
structure Order where
  id : Nat
  coordinates : ℚ × ℚ
deriving DecidableEq

-- this.poolingThreshold (part_002 line 7)
def poolingThreshold : ℚ := 15

/- The inner loop of findPoolingCandidates (part_002 lines 40-54): scan the
whole order list, skip processed orders, and absorb each order whose delivery
location is within the pooling threshold of the anchor of the current group.
Returns the absorbed orders and the updated processed set.  The Haversine
distance method of the service is abstracted as the function argument dist. -/
def absorbMatches (dist : (ℚ × ℚ) → (ℚ × ℚ) → ℚ) (anchor : Order) :
    List Order → List Nat → List Order × List Nat
  | [], processed => ([], processed)
  | potentialMatch :: rest, processed =>
    if potentialMatch.id ∈ processed then absorbMatches dist anchor rest processed
    else if dist anchor.coordinates potentialMatch.coordinates ≤ poolingThreshold then
      let res := absorbMatches dist anchor rest (potentialMatch.id :: processed)
      (potentialMatch :: res.1, res.2)
    else absorbMatches dist anchor rest processed

/- The outer loop of findPoolingCandidates (part_002 lines 34-60): each
unprocessed order anchors a new group; a group is pushed onto the result only
when it has more than one member. -/
def poolingPass (dist : (ℚ × ℚ) → (ℚ × ℚ) → ℚ) (allOrders : List Order) :
    List Order → List Nat → List (List Order)
  | [], _ => []
  | order :: rest, processed =>
    if order.id ∈ processed then poolingPass dist allOrders rest processed
    else
      let res := absorbMatches dist order allOrders (order.id :: processed)
      if 1 < (order :: res.1).length then
        (order :: res.1) :: poolingPass dist allOrders rest res.2
      else poolingPass dist allOrders rest res.2

-- findPoolingCandidates (part_002 lines 16-63), starting from the fetched
-- list of pending orders (the database query is an external collaborator)
def findPoolingCandidates (dist : (ℚ × ℚ) → (ℚ × ℚ) → ℚ) (pendingOrders : List Order) :
    List (List Order) :=
  if pendingOrders.length < 2 then []
  else poolingPass dist pendingOrders pendingOrders []

/- The clusterer as worded by the spec (section 4.4): identical greedy
single-pass grouping, but every group is kept in the output, groups of size
one included.  Used to compare the spec sentence with the source function. -/
def greedyPass (dist : (ℚ × ℚ) → (ℚ × ℚ) → ℚ) (allOrders : List Order) :
    List Order → List Nat → List (List Order)
  | [], _ => []
  | order :: rest, processed =>
    if order.id ∈ processed then greedyPass dist allOrders rest processed
    else
      let res := absorbMatches dist order allOrders (order.id :: processed)
      (order :: res.1) :: greedyPass dist allOrders rest res.2

def clusterSpec (dist : (ℚ × ℚ) → (ℚ × ℚ) → ℚ) (orders : List Order) : List (List Order) :=
  greedyPass dist orders orders []

/- ===== RouteOptimizationService.optimizeDeliverySequence (part_001 lines 267-357) ===== -/

-- a stop of the solver payload (part_001 lines 302-307)
structure PayloadStop where
  id : Nat
  coordinates : ℚ × ℚ
  serviceTime : ℤ
  priority : String
deriving DecidableEq

-- a traffic incident of the traffic provider response consumed by
-- processTrafficData, which reads its first two geometry points
structure RawIncident where
  coordinates : List (ℚ × ℚ)
  severity : String
  description : String
deriving DecidableEq

structure RawTraffic where
  overallCondition : String
  incidents : List RawIncident
  timestamp : ℚ
deriving DecidableEq

structure TrafficSegment where
  startCoord : ℚ × ℚ
  endCoord : ℚ × ℚ
  delayFactor : ℚ
  description : String
deriving DecidableEq

structure ProcessedTraffic where
  overallCondition : String
  segments : List TrafficSegment
  lastUpdated : ℚ
deriving DecidableEq

-- processTrafficData (part_001 lines 420-434)
def processTrafficData (trafficData : RawTraffic) : ProcessedTraffic :=
  { overallCondition := trafficData.overallCondition
    segments := trafficData.incidents.map (fun incident =>
      { startCoord := incident.coordinates.getD 0 (0, 0)
        endCoord := incident.coordinates.getD 1 (0, 0)
        delayFactor := calculateDelayFactor incident.severity
        description := incident.description })
    lastUpdated := trafficData.timestamp }

/- The caller-supplied options object.  Absent JavaScript fields are
modelled with Option or with the defaulted value the code substitutes. -/
structure DeliveryOptions where
  securityLevel : String
  shipmentType : String
  vehicleType : Option String
  avoidTolls : Bool
  avoidHighways : Bool
  departureTime : Option ℚ
  escortRequired : Bool
deriving DecidableEq

-- the normalized solver payload (part_001 lines 300-322)
structure RouteOptions where
  stops : List PayloadStop
  trafficConditions : ProcessedTraffic
  weatherConditions : WeatherData
  vehicleType : String
  avoidTolls : Bool
  avoidHighways : Bool
  departureTime : ℚ
  securityLevel : String
  shipmentType : String
  escortRequired : Bool
  alternateRoutes : Option Nat
  secureRouting : Bool
  avoidHighRiskAreas : Bool
deriving DecidableEq

def buildRouteOptions (trafficData : RawTraffic) (weatherData : WeatherData) (now : ℚ)
    (stops : List Stop) (options : DeliveryOptions) : RouteOptions :=
  let base : RouteOptions :=
    { stops := stops.map (fun stop =>
        { id := stop.id
          coordinates := stop.coordinates
          serviceTime := calculateServiceTime stop
          priority := stop.priority.getD "normal" })
      trafficConditions := processTrafficData trafficData
      weatherConditions := weatherData
      vehicleType := options.vehicleType.getD "standard"
      avoidTolls := options.avoidTolls
      avoidHighways := options.avoidHighways
      departureTime := options.departureTime.getD now
      securityLevel := options.securityLevel
      shipmentType := options.shipmentType
      escortRequired := options.escortRequired
      alternateRoutes := none
      secureRouting := false
      avoidHighRiskAreas := false }
  -- special handling for defense/military shipments (part_001 lines 317-322)
  if options.securityLevel = "high" ∨ options.shipmentType = "military" then
    { base with alternateRoutes := some 3, secureRouting := true, avoidHighRiskAreas := true }
  else base

-- the external solver response (part_001 lines 332-342)
structure SolverResponse where
  sequence : List PayloadStop
  routeGeometry : List (ℚ × ℚ)
  legs : List ℚ
  totalDistance : ℚ
  totalDuration : ℚ
  departureTime : ℚ
  arrivalTime : ℚ
  trafficDelayMinutes : ℚ
  alternateRoutes : Option (List (List (ℚ × ℚ)))
deriving DecidableEq

structure OptimizedRoute where
  sequence : List PayloadStop
  routeGeometry : List (ℚ × ℚ)
  legs : List ℚ
  totalDistance : ℚ
  totalDuration : ℚ
  departureTime : ℚ
  arrivalTime : ℚ
  trafficDelayMinutes : ℚ
  alternateRoutes : List (List (ℚ × ℚ))
deriving DecidableEq

def mkOptimizedRoute (resp : SolverResponse) : OptimizedRoute :=
  { sequence := resp.sequence
    routeGeometry := resp.routeGeometry
    legs := resp.legs
    totalDistance := resp.totalDistance
    totalDuration := resp.totalDuration
    departureTime := resp.departureTime
    arrivalTime := resp.arrivalTime
    trafficDelayMinutes := resp.trafficDelayMinutes
    alternateRoutes := resp.alternateRoutes.getD [] }

/- The redis cache backend, modelled as an association list of entries
(key, value, absolute expiry timestamp).  SET with EX overwrites the key and
arms a fresh expiry; GET returns the value only while it is unexpired. -/
def redisGet {K V : Type} [DecidableEq K] : List (K × V × ℚ) → ℚ → K → Option V
  | [], _, _ => none
  | entry :: rest, now, key =>
    if entry.1 = key then (if now < entry.2.2 then some entry.2.1 else none)
    else redisGet rest now key

def redisSetEx {K V : Type} (store : List (K × V × ℚ)) (key : K) (value : V)
    (expiry : ℚ) : List (K × V × ℚ) :=
  (key, value, expiry) :: store

-- this.cacheExpiry (part_001 line 269): 300 seconds
def cacheExpiry : ℚ := 300

/- optimizeDeliverySequence (part_001 lines 280-357).  The cache key is the
pair (stops, options), modelling the injective JSON serialization of line
281.  The result triple carries the returned value or thrown error, the
updated cache state, and the number of external solver invocations. -/
def optimizeDeliverySequence
    (solver : RouteOptions → Except String SolverResponse)
    (trafficData : RawTraffic) (weatherData : WeatherData) (now : ℚ)
    (store : List ((List Stop × DeliveryOptions) × OptimizedRoute × ℚ))
    (stops : List Stop) (options : DeliveryOptions) :
    Except String OptimizedRoute × List ((List Stop × DeliveryOptions) × OptimizedRoute × ℚ) × Nat :=
  let cacheKey := (stops, options)
  match redisGet store now cacheKey with
  | some cachedRoute => (Except.ok cachedRoute, store, 0)
  | none =>
    let routeOptions := buildRouteOptions trafficData weatherData now stops options
    match solver routeOptions with
    | Except.ok resp =>
      let optimizedRoute := mkOptimizedRoute resp
      (Except.ok optimizedRoute,
        redisSetEx store cacheKey optimizedRoute (now + cacheExpiry), 1)
    | Except.error msg => (Except.error ("Failed to optimize route: " ++ msg), store, 1)

/- ===== services/routeService.js (part_004 lines 211-633) ===== -/

-- a shipment of the optimization payload (part_004 lines 284-293)
structure PayloadShipment where
  id : Nat
  origin : ℚ × ℚ
  destination : ℚ × ℚ
  weight : ℚ
  volume : ℚ
  priority : String
  pickup : ℚ
  delivery : ℚ
deriving DecidableEq

-- a vehicle of the optimization payload (part_004 lines 294-301)
structure PayloadVehicle where
  id : Nat
  vehicleType : String
  location : ℚ × ℚ
  weightCapacity : ℚ
  volumeCapacity : ℚ
  fuelEfficiency : ℚ
deriving DecidableEq

structure OptimizationParameters where
  prioritize : String
  pooling : Bool
deriving DecidableEq

structure OptimizationPayload where
  shipments : List PayloadShipment
  vehicles : List PayloadVehicle
  parameters : OptimizationParameters
deriving DecidableEq

/- Number.prototype.toFixed(1), scaled by ten: the integer n closest to
10 * q, the larger one on ties, per the ECMAScript specification.  Group keys
compare two such rounded values, modelled as a pair of integers. -/
def jsToFixed1 (q : ℚ) : ℤ := ⌊q * 10 + 1/2⌋

def groupKey (shipment : PayloadShipment) : ℤ × ℤ :=
  (jsToFixed1 shipment.origin.2, jsToFixed1 shipment.destination.2)

-- appending a shipment to the bucket of its key, keys kept in first-seen
-- order as JavaScript object string keys are
def bucketAdd (buckets : List ((ℤ × ℤ) × List PayloadShipment)) (key : ℤ × ℤ)
    (shipment : PayloadShipment) : List ((ℤ × ℤ) × List PayloadShipment) :=
  match buckets with
  | [] => [(key, [shipment])]
  | bucket :: rest =>
    if bucket.1 = key then (bucket.1, bucket.2 ++ [shipment]) :: rest
    else bucket :: bucketAdd rest key shipment

/- groupShipmentsByProximity (part_004 lines 532-549): string-keyed bucketing
by the latitude of the origin and of the destination, each rounded to one
decimal. -/
def groupShipmentsByProximity (shipments : List PayloadShipment) : List (List PayloadShipment) :=
  (shipments.foldl (fun buckets shipment => bucketAdd buckets (groupKey shipment) shipment) []).map
    (fun bucket => bucket.2)

-- a stop of an internally built route (part_004 lines 558-582)
structure RouteStop where
  kind : String
  shipmentId : Option Nat
  location : ℚ × ℚ
  time : ℚ
deriving DecidableEq

/- buildRouteStops (part_004 lines 554-601): start stop at the vehicle
location, one pickup and one delivery stop per shipment, sorted by stop time
ascending (JavaScript Array.prototype.sort is stable).  The in-place
estimatedArrival decoration of lines 588-598 annotates the stops without
changing their order or membership and is not modelled. -/
def buildRouteStops (now : ℚ) (shipments : List PayloadShipment) (vehicle : PayloadVehicle) :
    List RouteStop :=
  let stops :=
    ({ kind := "start", shipmentId := none, location := vehicle.location, time := now } : RouteStop) ::
      (shipments.map (fun shipment =>
        ({ kind := "pickup", shipmentId := some shipment.id, location := shipment.origin,
           time := shipment.pickup } : RouteStop)) ++
       shipments.map (fun shipment =>
        ({ kind := "delivery", shipmentId := some shipment.id, location := shipment.destination,
           time := shipment.delivery } : RouteStop)))
  stops.mergeSort (fun a b => decide (a.time ≤ b.time))

-- the distances of the consecutive legs of a stop list
def routeLegDistances (dist : (ℚ × ℚ) → (ℚ × ℚ) → ℚ) : List RouteStop → List ℚ
  | a :: b :: rest => dist a.location b.location :: routeLegDistances dist (b :: rest)
  | _ => []

structure RouteMetrics where
  distance : ℚ
  time : ℚ
  fuel : ℚ
  co2 : ℚ
deriving DecidableEq

-- calculateRouteMetrics (part_004 lines 606-633): 60 km/h assumed speed,
-- fuel = distance / efficiency, co2 = 2.3 kg per liter
def calculateRouteMetrics (dist : (ℚ × ℚ) → (ℚ × ℚ) → ℚ) (stops : List RouteStop)
    (vehicle : PayloadVehicle) : RouteMetrics :=
  let distance := (routeLegDistances dist stops).sum
  let time := ((routeLegDistances dist stops).map (fun d => d / 60)).sum
  let fuel := distance * (1 / vehicle.fuelEfficiency)
  { distance := distance, time := time, fuel := fuel, co2 := fuel * (23/10) }

structure InternalRoute where
  vehicleId : Nat
  shipments : List Nat
  stops : List RouteStop
  metrics : RouteMetrics
deriving DecidableEq

structure AggMetrics where
  totalDistance : ℚ
  time : ℚ
  fuel : ℚ
  co2 : ℚ
  vehicleCount : Nat
  routeCount : Nat
deriving DecidableEq

structure InternalResult where
  routes : List InternalRoute
  unassignedShipments : List Nat
  metrics : AggMetrics
deriving DecidableEq

-- the vehicle comparator of part_004 line 469: capacity descending
def vehicleCapacityGE (a b : PayloadVehicle) : Bool :=
  decide (b.weightCapacity ≤ a.weightCapacity)

/- The forEach of part_004 lines 482-513: the group at index i is assigned to
the sorted vehicle at index i; groups beyond the vehicle count contribute
their shipment ids to unassignedShipments in order. -/
def assignGroups (dist : (ℚ × ℚ) → (ℚ × ℚ) → ℚ) (now : ℚ) :
    List (List PayloadShipment) → List PayloadVehicle → List InternalRoute × List Nat
  | [], _ => ([], [])
  | group :: groups, [] =>
    let res := assignGroups dist now groups []
    (res.1, group.map (fun s => s.id) ++ res.2)
  | group :: groups, vehicle :: vehicles =>
    let stops := buildRouteStops now group vehicle
    let res := assignGroups dist now groups vehicles
    ({ vehicleId := vehicle.id
       shipments := group.map (fun s => s.id)
       stops := stops
       metrics := calculateRouteMetrics dist stops vehicle } :: res.1, res.2)

-- performInternalOptimization (part_004 lines 461-527)
def performInternalOptimization (dist : (ℚ × ℚ) → (ℚ × ℚ) → ℚ) (now : ℚ)
    (optimizationPayload : OptimizationPayload) : InternalResult :=
  let sortedVehicles := optimizationPayload.vehicles.mergeSort vehicleCapacityGE
  let shipmentGroups := groupShipmentsByProximity optimizationPayload.shipments
  let assigned := assignGroups dist now shipmentGroups sortedVehicles
  { routes := assigned.1
    unassignedShipments := assigned.2
    metrics :=
      { totalDistance := (assigned.1.map (fun r => r.metrics.distance)).sum
        time := (assigned.1.map (fun r => r.metrics.time)).sum
        fuel := (assigned.1.map (fun r => r.metrics.fuel)).sum
        co2 := (assigned.1.map (fun r => r.metrics.co2)).sum
        vehicleCount := assigned.1.length
        routeCount := assigned.1.length } }

/- A shipment record as used by optimizeRoutes after the database fetch,
flattened to the fields the optimizer reads (part_004 lines 284-293). -/
structure DbShipment where
  id : Nat
  origin : ℚ × ℚ
  destination : ℚ × ℚ
  weight : ℚ
  volume : ℚ
  priority : String
  pickup : ℚ
  delivery : ℚ
deriving DecidableEq

def buildOptimizationPayload (shipments : List DbShipment) (vehicles : List PayloadVehicle)
    (parameters : OptimizationParameters) : OptimizationPayload :=
  { shipments := shipments.map (fun s =>
      { id := s.id, origin := s.origin, destination := s.destination, weight := s.weight,
        volume := s.volume, priority := s.priority, pickup := s.pickup, delivery := s.delivery })
    vehicles := vehicles
    parameters := parameters }

structure BaseMetrics where
  totalDistance : ℚ
  totalTime : ℚ
  totalFuel : ℚ
  totalCO2 : ℚ
  vehicleCount : Nat
  routeCount : Nat
deriving DecidableEq

-- calculateBaseMetrics (part_004 lines 404-439): direct distances, 60 km/h,
-- 0.1 L/km, 2.3 kg CO2 per liter
def calculateBaseMetrics (dist : (ℚ × ℚ) → (ℚ × ℚ) → ℚ) (shipments : List DbShipment) :
    BaseMetrics :=
  { totalDistance := (shipments.map (fun s => dist s.origin s.destination)).sum
    totalTime := (shipments.map (fun s => dist s.origin s.destination / 60)).sum
    totalFuel := (shipments.map (fun s => calculateFuelConsumption (dist s.origin s.destination) (1/10))).sum
    totalCO2 := (shipments.map (fun s => calculateFuelConsumption (dist s.origin s.destination) (1/10) * (23/10))).sum
    vehicleCount := shipments.length
    routeCount := shipments.length }

/- calculateSavings (part_004 lines 444-456).  Rational division by zero
yields 0 where the JavaScript percentages would be NaN; no theorem below
depends on the percentage fields. -/
structure Savings where
  distance : ℚ
  distancePercentage : ℚ
  time : ℚ
  timePercentage : ℚ
  fuel : ℚ
  fuelPercentage : ℚ
  co2 : ℚ
  co2Percentage : ℚ
  vehicleCount : ℤ
deriving DecidableEq

def calculateSavings (original : BaseMetrics) (optimized : AggMetrics) : Savings :=
  { distance := original.totalDistance - optimized.totalDistance
    distancePercentage := (original.totalDistance - optimized.totalDistance) / original.totalDistance * 100
    time := original.totalTime - optimized.time
    timePercentage := (original.totalTime - optimized.time) / original.totalTime * 100
    fuel := original.totalFuel - optimized.fuel
    fuelPercentage := (original.totalFuel - optimized.fuel) / original.totalFuel * 100
    co2 := original.totalCO2 - optimized.co2
    co2Percentage := (original.totalCO2 - optimized.co2) / original.totalCO2 * 100
    vehicleCount := (original.vehicleCount : ℤ) - (optimized.vehicleCount : ℤ) }

structure OptimizeRoutesResult where
  originalMetrics : BaseMetrics
  optimizedMetrics : AggMetrics
  savings : Savings
  routes : List InternalRoute
  unassignedShipments : List Nat
deriving DecidableEq

-- the result assembly of part_004 lines 342-348
def assembleResult (originalMetrics : BaseMetrics) (optimizationResult : InternalResult) :
    OptimizeRoutesResult :=
  { originalMetrics := originalMetrics
    optimizedMetrics := optimizationResult.metrics
    savings := calculateSavings originalMetrics optimizationResult.metrics
    routes := optimizationResult.routes
    unassignedShipments := optimizationResult.unassignedShipments }

/- optimizeRoutes (part_004 lines 263-364).  The database fetches are
external: the function receives the fetched shipments and the suitable
vehicles.  The external solver is the function argument solver; its response
is consumed with the same field shapes as the internal result.  The cache key
is the payload itself, modelling the injective JSON serialization of line
315.  The Kafka publication has no effect on the returned value and is not
modelled.  The result triple carries the returned value or thrown error, the
updated cache state, and the number of external solver invocations. -/
def optimizeRoutes (dist : (ℚ × ℚ) → (ℚ × ℚ) → ℚ)
    (solver : OptimizationPayload → Except String InternalResult)
    (now : ℚ) (store : List (OptimizationPayload × InternalResult × ℚ))
    (shipments : List DbShipment) (vehicles : List PayloadVehicle)
    (parameters : OptimizationParameters) :
    Except String OptimizeRoutesResult × List (OptimizationPayload × InternalResult × ℚ) × Nat :=
  if shipments.isEmpty then (Except.error "No shipments found for optimization", store, 0)
  else if vehicles.isEmpty then
    (Except.error "No suitable vehicles available for these shipments", store, 0)
  else
    let originalMetrics := calculateBaseMetrics dist shipments
    let optimizationPayload := buildOptimizationPayload shipments vehicles parameters
    match redisGet store now optimizationPayload with
    | some cachedResult => (Except.ok (assembleResult originalMetrics cachedResult), store, 0)
    | none =>
      match solver optimizationPayload with
      | Except.ok optimizationResult =>
        (Except.ok (assembleResult originalMetrics optimizationResult),
          redisSetEx store optimizationPayload optimizationResult (now + 300), 1)
      | Except.error _ =>
        (Except.ok (assembleResult originalMetrics
          (performInternalOptimization dist now optimizationPayload)), store, 1)

/- ===== Concrete sample inputs used by the witnesses and counterexamples ===== -/

-- stops for the service-time estimates of the spec
def plainStop : Stop :=
  { id := 1, coordinates := (0, 0), weight := 0, volume := 0, requiresSignature := false,
    securityLevel := "standard", shipmentType := "commercial", priority := none }

def highSecurityStop : Stop :=
  { id := 2, coordinates := (0, 0), weight := 0, volume := 0, requiresSignature := false,
    securityLevel := "high", shipmentType := "commercial", priority := none }

-- a stop of shipment type restricted with standard security
def restrictedStop : Stop :=
  { id := 3, coordinates := (0, 0), weight := 0, volume := 0, requiresSignature := false,
    securityLevel := "standard", shipmentType := "restricted", priority := none }

def sampleStop : Stop :=
  { id := 7, coordinates := (1, 2), weight := 12, volume := 2, requiresSignature := true,
    securityLevel := "standard", shipmentType := "commercial", priority := none }

def sampleOptions : DeliveryOptions :=
  { securityLevel := "standard", shipmentType := "commercial", vehicleType := none,
    avoidTolls := false, avoidHighways := false, departureTime := none, escortRequired := false }

def sampleTraffic : RawTraffic :=
  { overallCondition := "light", incidents := [], timestamp := 0 }

def sampleWeather : WeatherData :=
  { condition := "clear", precipitation := 0, visibility := 10000, windSpeed := 10,
    temperature := 15 }

def sampleResponse : SolverResponse :=
  { sequence := [], routeGeometry := [], legs := [], totalDistance := 42, totalDuration := 3600,
    departureTime := 0, arrivalTime := 3600000, trafficDelayMinutes := 5, alternateRoutes := none }

def sampleSolver : RouteOptions → Except String SolverResponse := fun _ => Except.ok sampleResponse

def failingRouteSolver : RouteOptions → Except String SolverResponse :=
  fun _ => Except.error "timeout of 30000ms exceeded"

-- the cache state after the first successful optimizeDeliverySequence call below
def sampleCachedStore : List ((List Stop × DeliveryOptions) × OptimizedRoute × ℚ) :=
  redisSetEx [] ([sampleStop], sampleOptions) (mkOptimizedRoute sampleResponse) (0 + cacheExpiry)

-- two weather observations differing only in sub-threshold precipitation
def weatherNoPrecip : WeatherData :=
  { condition := "rain", precipitation := 0, visibility := 10000, windSpeed := 0, temperature := 10 }

def weatherLightPrecip : WeatherData :=
  { condition := "rain", precipitation := 1, visibility := 10000, windSpeed := 0, temperature := 10 }

-- a constant stand-in for the abstracted Haversine distance
def flatDistanceTen : (ℚ × ℚ) → (ℚ × ℚ) → ℚ := fun _ _ => 10

-- three orders: oB is 10 km from the anchor oA, oC is 20 km from both
def oA : Order := { id := 1, coordinates := (0, 0) }
def oB : Order := { id := 2, coordinates := (0, 1) }
def oC : Order := { id := 3, coordinates := (5, 5) }

def dC : (ℚ × ℚ) → (ℚ × ℚ) → ℚ := fun p q =>
  if p = q then 0
  else if (p = (0, 0) ∧ q = (0, 1)) ∨ (p = (0, 1) ∧ q = (0, 0)) then 10
  else 20

/- Two payload shipments whose origins are 0.022 degrees of latitude apart
(about 2.2 km of great-circle distance, far below the 15 km pooling
threshold) but round to different one-decimal latitudes, 0.0 and 0.1. -/
def psA : PayloadShipment :=
  { id := 1, origin := (1, 1/25), destination := (5, 5), weight := 10, volume := 1,
    priority := "standard", pickup := 0, delivery := 1000 }

def psB : PayloadShipment :=
  { id := 2, origin := (1, 3/50), destination := (5, 5), weight := 10, volume := 1,
    priority := "standard", pickup := 0, delivery := 1000 }

def ordA : Order := { id := 1, coordinates := (1, 1/25) }
def ordB : Order := { id := 2, coordinates := (1, 3/50) }

-- the 2.2 km great-circle distance between the two origins, as a distance function
def dNear : (ℚ × ℚ) → (ℚ × ℚ) → ℚ := fun p q => if p = q then 0 else 11/5

def vehicleA : PayloadVehicle :=
  { id := 11, vehicleType := "truck", location := (0, 0), weightCapacity := 1000,
    volumeCapacity := 20, fuelEfficiency := 10 }

def vehicleB : PayloadVehicle :=
  { id := 12, vehicleType := "van", location := (0, 0), weightCapacity := 500,
    volumeCapacity := 10, fuelEfficiency := 12 }

def params0 : OptimizationParameters := { prioritize := "time", pooling := true }

def payloadCE : OptimizationPayload :=
  { shipments := [psA, psB], vehicles := [vehicleA, vehicleB], parameters := params0 }

def dbShipmentA : DbShipment :=
  { id := 1, origin := (0, 0), destination := (1, 1), weight := 100, volume := 2,
    priority := "standard", pickup := 0, delivery := 3600000 }

def failingSolver : OptimizationPayload → Except String InternalResult :=
  fun _ => Except.error "timeout of 30000ms exceeded"

/- ===================== Theorems ===================== -/

/- ----- GeoMath: distance properties (C9) ----- -/

-- squared sine of a half angle is invariant under negating the angle
theorem sin_sq_toRadians_swap (u v : ℝ) :
    Real.sin (toRadians (u - v) / 2) * Real.sin (toRadians (u - v) / 2) =
      Real.sin (toRadians (v - u) / 2) * Real.sin (toRadians (v - u) / 2) := by
  have h : toRadians (u - v) / 2 = -(toRadians (v - u) / 2) := by unfold toRadians; ring
  rw [h, Real.sin_neg]
  ring

theorem haversineA_symm (p q : ℝ × ℝ) : haversineA p q = haversineA q p := by
  unfold haversineA
  rw [sin_sq_toRadians_swap q.2 p.2, sin_sq_toRadians_swap q.1 p.1]
  ring

theorem haversineA_self (p : ℝ × ℝ) : haversineA p p = 0 := by
  simp [haversineA, toRadians]

theorem atan2_zero_one : atan2 0 1 = 0 := by
  unfold atan2
  norm_num

theorem calculateDistance_self (p : ℝ × ℝ) : calculateDistance p p = 0 := by
  unfold calculateDistance
  rw [haversineA_self]
  norm_num [atan2_zero_one]

/-- Claim C9 (amended): the Haversine distance of calculateDistance is
symmetric and vanishes on equal coordinate pairs; however zero distance does
not force equality of the coordinate pairs (see the pole counterexample). -/
theorem calculateDistance_symm_self :
    (∀ p q : ℝ × ℝ, calculateDistance p q = calculateDistance q p) ∧
      (∀ p : ℝ × ℝ, calculateDistance p p = 0) := by
  constructor
  · intro p q
    unfold calculateDistance
    rw [haversineA_symm]
  · exact calculateDistance_self

/-- Counterexample for claim C9: the two distinct coordinate pairs (0, 90)
and (10, 90) both denote the north pole, and their Haversine distance is
exactly zero, so zero distance does not imply equality of coordinates. -/
theorem calculateDistance_zero_at_distinct_poles :
    calculateDistance (0, 90) (10, 90) = 0 ∧ ((0, 90) : ℝ × ℝ) ≠ (10, 90) := by
  constructor
  · have hA : haversineA (0, 90) (10, 90) = 0 := by
      unfold haversineA toRadians
      have h90 : ((90 : ℝ) - 90) = 0 := by norm_num
      have hcos : Real.cos ((90 : ℝ) * Real.pi / 180) = 0 := by
        rw [show (90 : ℝ) * Real.pi / 180 = Real.pi / 2 by ring]
        exact Real.cos_pi_div_two
      simp only []
      norm_num [hcos]
    unfold calculateDistance
    rw [hA]
    norm_num [atan2_zero_one]
  · intro h
    have := congrArg Prod.fst h
    norm_num at this

/- ----- ServiceTimeEstimator (C6) ----- -/

/-- Claim C6 (amended): the service time is 5 base minutes plus the weight
and volume ceilings plus 3 for a signature plus 15 when the security level
is high or the shipment type is military; it is at least 5 for nonnegative
weight and volume, it is exactly 5 for the plain stop and exactly 20 for the
high-security stop.  A shipment type of restricted does not trigger the
15-minute surcharge in the source. -/
theorem calculateServiceTime_formula (stop : Stop) :
    (calculateServiceTime stop =
        5 + ⌈stop.weight / 10⌉ + ⌈stop.volume / (1/2)⌉ +
          (if stop.requiresSignature then 3 else 0) +
          (if stop.securityLevel = "high" ∨ stop.shipmentType = "military" then 15 else 0)) ∧
      (0 ≤ stop.weight → 0 ≤ stop.volume → 5 ≤ calculateServiceTime stop) ∧
      calculateServiceTime plainStop = 5 ∧
      calculateServiceTime highSecurityStop = 20 := by
  have heq : calculateServiceTime stop =
      5 + ⌈stop.weight / 10⌉ + ⌈stop.volume / (1/2)⌉ +
        (if stop.requiresSignature then 3 else 0) +
        (if stop.securityLevel = "high" ∨ stop.shipmentType = "military" then 15 else 0) := by
    unfold calculateServiceTime
    rcases eq_or_ne stop.weight 0 with hw | hw <;> rcases eq_or_ne stop.volume 0 with hv | hv <;>
      simp [hw, hv]
  refine ⟨heq, ?_, by norm_num [calculateServiceTime, plainStop] <;> decide,
    by norm_num [calculateServiceTime, highSecurityStop] <;> decide⟩
  intro hw hv
  have h1 : (0 : ℤ) ≤ ⌈stop.weight / 10⌉ := Int.ceil_nonneg (by positivity)
  have h2 : (0 : ℤ) ≤ ⌈stop.volume / (1/2)⌉ := Int.ceil_nonneg (by positivity)
  rw [heq]
  split_ifs <;> omega

/-- Witness for claim C6 at the plain stop. -/
theorem calculateServiceTime_formula_witness :
    (0 : ℚ) ≤ plainStop.weight ∧ (0 : ℚ) ≤ plainStop.volume ∧
      5 ≤ calculateServiceTime plainStop :=
  ⟨by norm_num [plainStop], by norm_num [plainStop],
    (calculateServiceTime_formula plainStop).2.1 (by norm_num [plainStop])
      (by norm_num [plainStop])⟩

/-- Counterexample for claim C6: a stop of shipment type restricted with
standard security gets no 15-minute surcharge from the source function,
while the formula of the spec adds it. -/
theorem calculateServiceTime_restricted_no_surcharge :
    calculateServiceTime restrictedStop = 5 ∧ specServiceTime restrictedStop = 20 ∧
      calculateServiceTime restrictedStop ≠ specServiceTime restrictedStop := by
  refine ⟨by norm_num [calculateServiceTime, restrictedStop] <;> decide,
    by norm_num [specServiceTime, restrictedStop] <;> decide,
    by norm_num [calculateServiceTime, specServiceTime, restrictedStop] <;> decide⟩

/- ----- DelayModel: weather factor (C7) ----- -/

/-- Claim C7 (amended): the weather delay factor is the product of the four
independent band factors for precipitation, visibility, wind and icing
temperature, compounding by multiplication independently of the order in
which the bands are applied; the precipitation band has an extra threshold
at 0 mm in addition to the ones at 2 mm and 10 mm. -/
theorem calculateWeatherDelayFactor_band_product (w : WeatherData) :
    (calculateWeatherDelayFactor w =
        precipitationFactor w.precipitation * visibilityFactor w.visibility *
          windFactor w.windSpeed * temperatureFactor w.temperature) ∧
      (calculateWeatherDelayFactor w =
        temperatureFactor w.temperature * windFactor w.windSpeed *
          visibilityFactor w.visibility * precipitationFactor w.precipitation) := by
  unfold calculateWeatherDelayFactor precipitationFactor visibilityFactor windFactor
    temperatureFactor
  constructor <;> split_ifs <;> ring

/-- Counterexample for claim C7: two observations that differ only in
precipitation, both below the 2 mm threshold, produce different factors
(1 versus 1.1), because zero precipitation is exempted by the truthiness
guard of the source; so the precipitation band is not determined by the
thresholds 2 mm and 10 mm alone. -/
theorem weatherFactor_extra_threshold_below_two :
    weatherNoPrecip.precipitation < 2 ∧ weatherLightPrecip.precipitation < 2 ∧
      weatherNoPrecip.visibility = weatherLightPrecip.visibility ∧
      weatherNoPrecip.windSpeed = weatherLightPrecip.windSpeed ∧
      weatherNoPrecip.temperature = weatherLightPrecip.temperature ∧
      calculateWeatherDelayFactor weatherNoPrecip ≠
        calculateWeatherDelayFactor weatherLightPrecip := by
  refine ⟨by norm_num [weatherNoPrecip], by norm_num [weatherLightPrecip],
    by norm_num [weatherNoPrecip, weatherLightPrecip],
    by norm_num [weatherNoPrecip, weatherLightPrecip],
    by norm_num [weatherNoPrecip, weatherLightPrecip],
    by norm_num [calculateWeatherDelayFactor, weatherNoPrecip, weatherLightPrecip]⟩

/- ----- GeoMath: calculateETA (C8) ----- -/

/-- Claim C8 (amended): calculateETA performs no validation of the speed and
never produces an error value: with speed 0 it silently returns an invalid
Date (modelled none), and with any nonzero speed, negative speeds included,
it silently returns a timestamp. -/
theorem calculateETA_no_validation (dist : (ℚ × ℚ) → (ℚ × ℚ) → ℚ)
    (originPoint destinationPoint : ℚ × ℚ) (startTime : ℚ) :
    (calculateETA dist originPoint destinationPoint 0 startTime = Except.ok none) ∧
      (∀ speed : ℚ, speed ≠ 0 →
        calculateETA dist originPoint destinationPoint speed startTime =
          Except.ok (some (startTime +
            dist originPoint destinationPoint / speed * (60 * 60 * 1000)))) := by
  constructor
  · simp [calculateETA, jsDiv]
  · intro speed hs
    simp [calculateETA, jsDiv, hs]

/-- Witness for claim C8: with the negative speed -10 the function silently
returns a timestamp instead of raising. -/
theorem calculateETA_no_validation_witness :
    ((-10 : ℚ) ≠ 0) ∧
      calculateETA flatDistanceTen (0, 0) (3, 4) (-10) 0 =
        Except.ok (some ((0 : ℚ) + flatDistanceTen (0, 0) (3, 4) / (-10) * (60 * 60 * 1000))) :=
  ⟨by norm_num,
    (calculateETA_no_validation flatDistanceTen (0, 0) (3, 4) 0).2 (-10) (by norm_num)⟩

/-- Counterexample for claim C8: with speed 0 the function returns an
invalid Date value rather than an InvalidInputError; no error is raised. -/
theorem calculateETA_zero_speed_returns_invalid_date :
    calculateETA flatDistanceTen (0, 0) (3, 4) 0 0 = Except.ok none ∧
      (Except.ok none : Except CalculationError (Option ℚ)) ≠
        Except.error CalculationError.invalidInput := by
  refine ⟨by simp [calculateETA, jsDiv], by simp⟩

/- ----- RerouteMonitor (C3) ----- -/

/-- Claim C3: the evaluation decides to re-optimize exactly when a severe
incident lies within the 0.5 km buffer of the route polyline, or the weather
condition is storm or blizzard or the visibility is below 200 m, or the
projected new arrival exceeds the committed arrival by more than 30 minutes
while the overall traffic condition is severe. -/
theorem rerouteDecision_reoptimize_iff
    (turfWithinBuffer : IncidentGeometry → List (ℚ × ℚ) → ℚ → Bool)
    (route : LiveRoute) (traffic : MonitorTraffic) (weather : WeatherData) :
    rerouteDecision turfWithinBuffer route traffic weather = RerouteDecision.reoptimize ↔
      ((∃ incident ∈ traffic.incidents, incident.severity = "severe" ∧
          turfWithinBuffer incident.geometry route.routeGeometry (1/2) = true)
        ∨ (weather.condition = "storm" ∨ weather.condition = "blizzard" ∨
            weather.visibility < 200)
        ∨ (traffic.overallCondition = "severe" ∧
            30 < (calculateNewETA route traffic - route.arrivalTime) / 60000)) := by
  have hdiv : ((30 : ℚ) < (calculateNewETA route traffic - route.arrivalTime) / 60000) ↔
      ((30 : ℚ) * 60 * 1000 < calculateNewETA route traffic - route.arrivalTime) := by
    rw [lt_div_iff (by norm_num : (0 : ℚ) < 60000)]
    norm_num
  have hbool : (checkIfReroutingNeeded turfWithinBuffer route traffic weather = true) ↔
      ((∃ incident ∈ traffic.incidents, incident.severity = "severe" ∧
          turfWithinBuffer incident.geometry route.routeGeometry (1/2) = true)
        ∨ (weather.condition = "storm" ∨ weather.condition = "blizzard" ∨
            weather.visibility < 200)
        ∨ (traffic.overallCondition = "severe" ∧
            30 < (calculateNewETA route traffic - route.arrivalTime) / 60000)) := by
    rw [hdiv]
    simp only [checkIfReroutingNeeded, isIncidentOnRoute, List.any_eq_true, Bool.or_eq_true,
      Bool.and_eq_true, beq_iff_eq, decide_eq_true_eq, gt_iff_lt, or_assoc]
  rw [← hbool]
  unfold rerouteDecision
  by_cases h : checkIfReroutingNeeded turfWithinBuffer route traffic weather = true
  · simp [h]
  · simp [h]

/- ----- ProximityClusterer (C4 and C10) ----- -/

-- the processed set only grows along the absorbing scan
theorem absorbMatches_processed_subset (dist : (ℚ × ℚ) → (ℚ × ℚ) → ℚ) (anchor : Order) :
    ∀ (l : List Order) (processed : List Nat) (x : Nat), x ∈ processed →
      x ∈ (absorbMatches dist anchor l processed).2 := by
  intro l
  induction l with
  | nil => intro processed x hx; simpa [absorbMatches] using hx
  | cons m rest ih =>
    intro processed x hx
    unfold absorbMatches
    split_ifs with h1 h2
    · exact ih processed x hx
    · exact ih (m.id :: processed) x (List.mem_cons_of_mem _ hx)
    · exact ih processed x hx

-- every absorbed order was unprocessed at entry and is processed at exit
theorem absorbMatches_mem (dist : (ℚ × ℚ) → (ℚ × ℚ) → ℚ) (anchor : Order) :
    ∀ (l : List Order) (processed : List Nat) (o : Order),
      o ∈ (absorbMatches dist anchor l processed).1 →
        o.id ∈ (absorbMatches dist anchor l processed).2 ∧ o.id ∉ processed := by
  intro l
  induction l with
  | nil => intro processed o ho; simp [absorbMatches] at ho
  | cons m rest ih =>
    intro processed o ho
    unfold absorbMatches at ho ⊢
    split_ifs at ho ⊢ with h1 h2
    · exact ih processed o ho
    · rcases List.mem_cons.mp ho with heq | hmem
      · subst heq
        refine ⟨absorbMatches_processed_subset dist anchor rest (o.id :: processed) o.id
          (List.mem_cons_self _ _), h1⟩
      · have hres := ih (m.id :: processed) o hmem
        exact ⟨hres.1, fun hmemP => hres.2 (List.mem_cons_of_mem _ hmemP)⟩
    · exact ih processed o ho

-- every order of every emitted group was unprocessed at entry of the pass
theorem greedyPass_fresh (dist : (ℚ × ℚ) → (ℚ × ℚ) → ℚ) (allOrders : List Order) :
    ∀ (l : List Order) (processed : List Nat) (g : List Order) (o : Order),
      g ∈ greedyPass dist allOrders l processed → o ∈ g → o.id ∉ processed := by
  intro l
  induction l with
  | nil => intro processed g o hg; simp [greedyPass] at hg
  | cons hd rest ih =>
    intro processed g o hg ho
    unfold greedyPass at hg
    split_ifs at hg with h1
    · exact ih processed g o hg ho
    · rcases List.mem_cons.mp hg with heq | hmem
      · subst heq
        rcases List.mem_cons.mp ho with hoeq | homem
        · subst hoeq; exact h1
        · have := absorbMatches_mem dist hd allOrders (hd.id :: processed) o homem
          exact fun hmemP => this.2 (List.mem_cons_of_mem _ hmemP)
      · intro hmemP
        have hsub : o.id ∈ (absorbMatches dist hd allOrders (hd.id :: processed)).2 :=
          absorbMatches_processed_subset dist hd allOrders (hd.id :: processed) o.id
            (List.mem_cons_of_mem _ hmemP)
        exact ih _ g o hmem ho hsub

-- the groups emitted by the greedy pass are pairwise disjoint on order ids
theorem greedyPass_disjoint (dist : (ℚ × ℚ) → (ℚ × ℚ) → ℚ) (allOrders : List Order) :
    ∀ (l : List Order) (processed : List Nat),
      (greedyPass dist allOrders l processed).Pairwise
        (fun g1 g2 => ∀ o1 ∈ g1, ∀ o2 ∈ g2, o1.id ≠ o2.id) := by
  intro l
  induction l with
  | nil => intro processed; simp [greedyPass]
  | cons hd rest ih =>
    intro processed
    unfold greedyPass
    split_ifs with h1
    · exact ih processed
    · refine List.Pairwise.cons ?_ (ih _)
      intro g2 hg2 o1 ho1 o2 ho2 heq
      have ho2fresh : o2.id ∉ (absorbMatches dist hd allOrders (hd.id :: processed)).2 :=
        greedyPass_fresh dist allOrders rest _ g2 o2 hg2 ho2
      rcases List.mem_cons.mp ho1 with hoeq | homem
      · have h1mem : o1.id ∈ (absorbMatches dist hd allOrders (hd.id :: processed)).2 := by
          rw [hoeq]
          exact absorbMatches_processed_subset dist hd allOrders (hd.id :: processed) hd.id
            (List.mem_cons_self _ _)
        exact ho2fresh (heq ▸ h1mem)
      · have := (absorbMatches_mem dist hd allOrders (hd.id :: processed) o1 homem).1
        exact ho2fresh (heq ▸ this)

-- the source pass equals the spec greedy pass with singleton groups dropped
theorem poolingPass_eq_filter (dist : (ℚ × ℚ) → (ℚ × ℚ) → ℚ) (allOrders : List Order) :
    ∀ (l : List Order) (processed : List Nat),
      poolingPass dist allOrders l processed =
        (greedyPass dist allOrders l processed).filter (fun g => decide (1 < g.length)) := by
  intro l
  induction l with
  | nil => intro processed; simp [poolingPass, greedyPass]
  | cons hd rest ih =>
    intro processed
    unfold poolingPass greedyPass
    split_ifs with h1
    · exact ih processed
    · rw [List.filter_cons]
      by_cases h2 : 1 < (hd :: (absorbMatches dist hd allOrders (hd.id :: processed)).1).length
      · simp [h2, ih]
      · simp [h2, ih]

/-- Claim C4 (amended): findPoolingCandidates is the greedy single-pass
clusterer worded by the spec (orders visited in input order, each unprocessed
order anchoring a group that absorbs every other unprocessed order within the
threshold distance of the anchor, absorbed orders marked processed), except
that groups of size one are not reported at all: the returned list is the
greedy grouping restricted to the groups with more than one member. -/
theorem findPoolingCandidates_eq_spec_filter (dist : (ℚ × ℚ) → (ℚ × ℚ) → ℚ)
    (orders : List Order) :
    findPoolingCandidates dist orders =
      (clusterSpec dist orders).filter (fun g => decide (1 < g.length)) := by
  unfold findPoolingCandidates clusterSpec
  split_ifs with h
  · rcases orders with _ | ⟨o, _ | ⟨o2, rest⟩⟩
    · simp [greedyPass]
    · simp [greedyPass, absorbMatches]
    · simp at h
      omega
  · exact poolingPass_eq_filter dist orders orders []

/-- Counterexample for claim C4: with three orders where only the second is
within the threshold of the first, the third order forms a singleton group
that the function silently discards: the returned value is a single list of
multi-member groups and the singleton order appears nowhere in it, so
singleton groups are not reported separately. -/
theorem findPoolingCandidates_singleton_dropped :
    findPoolingCandidates dC [oA, oB, oC] = [[oA, oB]] ∧
      oC ∉ (findPoolingCandidates dC [oA, oB, oC]).join := by
  have h1 : findPoolingCandidates dC [oA, oB, oC] = [[oA, oB]] := rfl
  refine ⟨h1, ?_⟩
  rw [h1]
  norm_num [List.join, List.mem_cons, oA, oB, oC]

/-- Claim C10: the groups returned by findPoolingCandidates are pairwise
disjoint: no order id occurs in two distinct returned groups, because an
absorbed order is marked processed and never reconsidered. -/
theorem findPoolingCandidates_disjoint (dist : (ℚ × ℚ) → (ℚ × ℚ) → ℚ)
    (orders : List Order) :
    (findPoolingCandidates dist orders).Pairwise
      (fun g1 g2 => ∀ o1 ∈ g1, ∀ o2 ∈ g2, o1.id ≠ o2.id) := by
  unfold findPoolingCandidates
  split_ifs with h
  · exact List.Pairwise.nil
  · rw [poolingPass_eq_filter]
    exact List.Pairwise.sublist (List.filter_sublist _) (greedyPass_disjoint dist orders orders [])

/- ----- FallbackOptimizer: performInternalOptimization (C5) ----- -/

theorem vehicleCapacityGE_trans (a b c : PayloadVehicle) :
    vehicleCapacityGE a b = true → vehicleCapacityGE b c = true → vehicleCapacityGE a c = true := by
  intro hab hbc
  exact decide_eq_true (le_trans (of_decide_eq_true hbc) (of_decide_eq_true hab))

theorem vehicleCapacityGE_total (a b : PayloadVehicle) :
    (vehicleCapacityGE a b || vehicleCapacityGE b a) = true := by
  rcases le_total a.weightCapacity b.weightCapacity with h | h <;> simp [vehicleCapacityGE, h]

-- the stops built for a group are sorted by stop time ascending
theorem buildRouteStops_sorted (now : ℚ) (shipments : List PayloadShipment)
    (vehicle : PayloadVehicle) :
    (buildRouteStops now shipments vehicle).Pairwise (fun a b => a.time ≤ b.time) := by
  unfold buildRouteStops
  have h := @List.sorted_mergeSort RouteStop (fun a b => decide (a.time ≤ b.time))
    (by intro a b c hab hbc
        exact decide_eq_true (le_trans (of_decide_eq_true hab) (of_decide_eq_true hbc)))
    (by intro a b
        rcases le_total a.time b.time with h | h <;> simp [h])
  exact (h _).imp (fun hab => of_decide_eq_true hab)

-- the index-paired forEach of the source as a zipWith plus a drop
theorem assignGroups_eq_zipWith (dist : (ℚ × ℚ) → (ℚ × ℚ) → ℚ) (now : ℚ) :
    ∀ (groups : List (List PayloadShipment)) (vehicles : List PayloadVehicle),
      assignGroups dist now groups vehicles =
        (List.zipWith (fun g v =>
            ({ vehicleId := v.id, shipments := g.map (fun s => s.id),
               stops := buildRouteStops now g v,
               metrics := calculateRouteMetrics dist (buildRouteStops now g v) v } : InternalRoute))
          groups vehicles,
         ((groups.drop vehicles.length).map (fun g => g.map (fun s => s.id))).join) := by
  intro groups
  induction groups with
  | nil => intro vehicles; cases vehicles <;> simp [assignGroups]
  | cons g gs ih =>
    intro vehicles
    cases vehicles with
    | nil => simp [assignGroups, ih []]
    | cons v vs => simp [assignGroups, ih vs]

/-- Claim C5 (amended): on fallback the vehicles are sorted by weight
capacity descending, the shipments are grouped by groupShipmentsByProximity
(bucketing on origin and destination latitudes rounded to one decimal, not
the greedy proximity clusterer), the group at each index is assigned to the
sorted vehicle at the same index with the stops of a group sorted by
scheduled time ascending, and the groups beyond the vehicle count contribute
their shipment ids to unassignedShipments. -/
theorem performInternalOptimization_structure (dist : (ℚ × ℚ) → (ℚ × ℚ) → ℚ) (now : ℚ)
    (payload : OptimizationPayload) :
    (payload.vehicles.mergeSort vehicleCapacityGE).Perm payload.vehicles
      ∧ (payload.vehicles.mergeSort vehicleCapacityGE).Pairwise
          (fun a b => b.weightCapacity ≤ a.weightCapacity)
      ∧ (performInternalOptimization dist now payload).routes =
          List.zipWith (fun g v =>
              ({ vehicleId := v.id, shipments := g.map (fun s => s.id),
                 stops := buildRouteStops now g v,
                 metrics := calculateRouteMetrics dist (buildRouteStops now g v) v } : InternalRoute))
            (groupShipmentsByProximity payload.shipments)
            (payload.vehicles.mergeSort vehicleCapacityGE)
      ∧ (∀ (g : List PayloadShipment) (v : PayloadVehicle),
          (buildRouteStops now g v).Pairwise (fun a b => a.time ≤ b.time))
      ∧ (performInternalOptimization dist now payload).unassignedShipments =
          (((groupShipmentsByProximity payload.shipments).drop payload.vehicles.length).map
            (fun g => g.map (fun s => s.id))).join := by
  have hperm := List.mergeSort_perm payload.vehicles vehicleCapacityGE
  refine ⟨hperm, ?_, ?_, fun g v => buildRouteStops_sorted now g v, ?_⟩
  · have h := @List.sorted_mergeSort PayloadVehicle vehicleCapacityGE vehicleCapacityGE_trans
      vehicleCapacityGE_total payload.vehicles
    exact h.imp (fun hab => of_decide_eq_true hab)
  · simp [performInternalOptimization, assignGroups_eq_zipWith]
  · simp [performInternalOptimization, assignGroups_eq_zipWith, hperm.length_eq]

/-- Counterexample for claim C5: two shipments whose origins are about 2.2 km
apart (within the 15 km pooling threshold, so the greedy proximity clusterer
pools them into one group) fall into different rounded-latitude buckets, so
the fallback groups them separately and builds two one-shipment routes. -/
theorem groupShipmentsByProximity_not_proximity_clusterer :
    groupShipmentsByProximity [psA, psB] = [[psA], [psB]] ∧
      findPoolingCandidates dNear [ordA, ordB] = [[ordA, ordB]] ∧
      (performInternalOptimization dNear 0 payloadCE).routes.length = 2 := by
  have hkA : groupKey psA = (0, 50) := by
    norm_num [groupKey, jsToFixed1, psA, Prod.ext_iff]
  have hkB : groupKey psB = (1, 50) := by
    norm_num [groupKey, jsToFixed1, psB, Prod.ext_iff]
  have hgroups : groupShipmentsByProximity [psA, psB] = [[psA], [psB]] := by
    norm_num [groupShipmentsByProximity, bucketAdd, hkA, hkB, Prod.ext_iff]
  refine ⟨hgroups, ?_, ?_⟩
  · norm_num [findPoolingCandidates, poolingPass, absorbMatches, dNear, ordA, ordB,
      poolingThreshold, Prod.ext_iff]
  · have hlen : (payloadCE.vehicles.mergeSort vehicleCapacityGE).length = 2 := by
      rw [(List.mergeSort_perm payloadCE.vehicles vehicleCapacityGE).length_eq]
      rfl
    have hship : payloadCE.shipments = [psA, psB] := rfl
    simp [performInternalOptimization, assignGroups_eq_zipWith, hship, hgroups, hlen]

/- ----- RouteOptimizationService cache behavior (C2) ----- -/

/-- Claim C2: a first optimizeDeliverySequence call on a cache miss invokes
the external solver once and stores the route with an absolute expiry of
start time plus the 300-second TTL; a second identical call before the
expiry returns exactly the cached route, leaves the cache unchanged, and
performs zero solver invocations, bypassing the provider fetches, the
payload build and the solver. -/
theorem optimizeDeliverySequence_cache_roundtrip
    (solver : RouteOptions → Except String SolverResponse)
    (trafficData : RawTraffic) (weatherData : WeatherData)
    (store : List ((List Stop × DeliveryOptions) × OptimizedRoute × ℚ))
    (stops : List Stop) (options : DeliveryOptions) (t0 t1 : ℚ) (resp : SolverResponse)
    (hmiss : redisGet store t0 (stops, options) = none)
    (hsolve : solver (buildRouteOptions trafficData weatherData t0 stops options) =
      Except.ok resp)
    (httl : t1 < t0 + 300) :
    optimizeDeliverySequence solver trafficData weatherData t0 store stops options =
        (Except.ok (mkOptimizedRoute resp),
          redisSetEx store (stops, options) (mkOptimizedRoute resp) (t0 + cacheExpiry), 1)
      ∧ cacheExpiry = 300
      ∧ optimizeDeliverySequence solver trafficData weatherData t1
          (redisSetEx store (stops, options) (mkOptimizedRoute resp) (t0 + cacheExpiry))
          stops options =
        (Except.ok (mkOptimizedRoute resp),
          redisSetEx store (stops, options) (mkOptimizedRoute resp) (t0 + cacheExpiry), 0) := by
  refine ⟨?_, rfl, ?_⟩
  · simp [optimizeDeliverySequence, hmiss, hsolve]
  · simp [optimizeDeliverySequence, redisGet, redisSetEx, cacheExpiry, httl]

/-- Witness for claim C2 with a concrete solver, stop list and empty cache. -/
theorem optimizeDeliverySequence_cache_roundtrip_witness :
    (redisGet ([] : List ((List Stop × DeliveryOptions) × OptimizedRoute × ℚ)) 0
        ([sampleStop], sampleOptions) = none)
      ∧ (sampleSolver (buildRouteOptions sampleTraffic sampleWeather 0 [sampleStop] sampleOptions) =
          Except.ok sampleResponse)
      ∧ ((100 : ℚ) < 0 + 300)
      ∧ (optimizeDeliverySequence sampleSolver sampleTraffic sampleWeather 0 [] [sampleStop]
            sampleOptions =
          (Except.ok (mkOptimizedRoute sampleResponse), sampleCachedStore, 1)
        ∧ cacheExpiry = 300
        ∧ optimizeDeliverySequence sampleSolver sampleTraffic sampleWeather 100 sampleCachedStore
            [sampleStop] sampleOptions =
          (Except.ok (mkOptimizedRoute sampleResponse), sampleCachedStore, 0)) :=
  ⟨rfl, rfl, by norm_num,
    optimizeDeliverySequence_cache_roundtrip sampleSolver sampleTraffic sampleWeather []
      [sampleStop] sampleOptions 0 100 sampleResponse rfl rfl (by norm_num)⟩

/- ----- Solver failure handling (C1) ----- -/

/-- Claim C1 (amended): in routeService.optimizeRoutes a solver failure is
absorbed: the function returns a non-error result built by the internal
fallback optimizer and does not cache it.  In
RouteOptimizationService.optimizeDeliverySequence, by contrast, a solver
failure is wrapped and rethrown to the caller (see the counterexample). -/
theorem optimizeRoutes_solver_failure_falls_back
    (dist : (ℚ × ℚ) → (ℚ × ℚ) → ℚ)
    (solver : OptimizationPayload → Except String InternalResult)
    (now : ℚ) (store : List (OptimizationPayload × InternalResult × ℚ))
    (shipments : List DbShipment) (vehicles : List PayloadVehicle)
    (parameters : OptimizationParameters) (e : String)
    (hs : shipments.isEmpty = false) (hv : vehicles.isEmpty = false)
    (hmiss : redisGet store now (buildOptimizationPayload shipments vehicles parameters) = none)
    (hfail : solver (buildOptimizationPayload shipments vehicles parameters) = Except.error e) :
    optimizeRoutes dist solver now store shipments vehicles parameters =
      (Except.ok (assembleResult (calculateBaseMetrics dist shipments)
          (performInternalOptimization dist now
            (buildOptimizationPayload shipments vehicles parameters))),
        store, 1) := by
  simp [optimizeRoutes, hs, hv, hmiss, hfail]

/-- Witness for claim C1 with a concrete failing solver. -/
theorem optimizeRoutes_solver_failure_falls_back_witness :
    (([dbShipmentA] : List DbShipment).isEmpty = false)
      ∧ (([vehicleA] : List PayloadVehicle).isEmpty = false)
      ∧ (redisGet ([] : List (OptimizationPayload × InternalResult × ℚ)) 0
          (buildOptimizationPayload [dbShipmentA] [vehicleA] params0) = none)
      ∧ (failingSolver (buildOptimizationPayload [dbShipmentA] [vehicleA] params0) =
          Except.error "timeout of 30000ms exceeded")
      ∧ optimizeRoutes flatDistanceTen failingSolver 0 [] [dbShipmentA] [vehicleA] params0 =
          (Except.ok (assembleResult (calculateBaseMetrics flatDistanceTen [dbShipmentA])
              (performInternalOptimization flatDistanceTen 0
                (buildOptimizationPayload [dbShipmentA] [vehicleA] params0))),
            [], 1) :=
  ⟨rfl, rfl, rfl, rfl,
    optimizeRoutes_solver_failure_falls_back flatDistanceTen failingSolver 0 [] [dbShipmentA]
      [vehicleA] params0 "timeout of 30000ms exceeded" rfl rfl rfl rfl⟩

/-- Counterexample for claim C1: optimizeDeliverySequence surfaces the
solver failure to the caller as an error instead of degrading to a fallback
route. -/
theorem optimizeDeliverySequence_raises_on_solver_failure :
    (optimizeDeliverySequence failingRouteSolver sampleTraffic sampleWeather 0 [] [sampleStop]
        sampleOptions).1 =
      Except.error "Failed to optimize route: timeout of 30000ms exceeded" := rfl

end TransportApp
